import Mathlib

/-!
Shallow embedding of the EVM exact-scheme facilitator (verify / settle) of the
x402 repository, together with proofs of the specified properties.

Modelling conventions:
* JS strings are Lean `String`; decimal-string integer fields (`value`,
  `validAfter`, `validBefore`, `maxAmountRequired`) are modelled by the
  unsigned integers they denote, since the source immediately converts them
  with `BigInt` (arbitrary precision) before any comparison.
* External collaborators (chain reader, signature engine, chain writer) are
  fields of an `Env` record.  Calls that can throw in JS return
  `Except Unit α`; a thrown exception is `Except.error ()`.  The source wraps
  only the network/name/version resolution in try/catch; everywhere else an
  exception propagates, which the embedding renders as the whole function
  returning `Except.error ()`.
* `viem.getAddress` is modelled by its canonicalisation up to letter case
  (checksumming maps case-variants of the same address to one string).
* `settleWithTrace` additionally returns the list of `writeContract`
  submissions performed, so that claims about the submission step are
  statable; `settle` is its first projection.
-/

set_option maxRecDepth 8000

namespace X402

/-- The exact payment scheme identifier (SCHEME from the exact scheme module). -/
def SCHEME : String := "exact"

/-- The closed enumeration of reject reasons used by verify and settle. -/
inductive InvalidReason where
  | unsupported_scheme
  | invalid_network
  | invalid_exact_evm_payload_signature
  | invalid_exact_evm_payload_recipient_mismatch
  | invalid_exact_evm_payload_authorization_valid_before
  | invalid_exact_evm_payload_authorization_valid_after
  | insufficient_funds
  | invalid_exact_evm_payload_authorization_value
  | invalid_exact_evm_payload_undeployed_smart_wallet
  | invalid_scheme
  | invalid_transaction_state
  deriving DecidableEq, Repr

/-- The signed transfer authorization carried in the payload. -/
structure Authorization where
  from_ : String
  to_ : String
  value : Nat
  validAfter : Nat
  validBefore : Nat
  nonce : String
  deriving DecidableEq, Repr

/-- The exact-EVM payload: a signature plus the authorization it signs. -/
structure ExactEvmPayload where
  signature : String
  authorization : Authorization
  deriving DecidableEq, Repr

/-- The payment payload presented by the client. -/
structure PaymentPayload where
  x402Version : Nat
  scheme : String
  network : String
  payload : ExactEvmPayload
  deriving DecidableEq, Repr

/-- Optional per-network metadata on the requirements (extra.name, extra.version). -/
structure Extra where
  name : Option String
  version : Option String
  deriving DecidableEq, Repr

/-- The server-declared payment requirements. -/
structure PaymentRequirements where
  scheme : String
  network : String
  maxAmountRequired : Nat
  payTo : String
  asset : String
  extra : Option Extra
  deriving DecidableEq, Repr

/-- VerifyResponse as returned by verify. -/
structure VerifyResponse where
  isValid : Bool
  invalidReason : Option InvalidReason
  payer : String
  deriving DecidableEq, Repr

/-- SettleResponse as returned by settle. -/
structure SettleResponse where
  success : Bool
  network : String
  transaction : String
  errorReason : Option InvalidReason
  payer : String
  deriving DecidableEq, Repr

/-- Result of viem parseErc6492Signature: optional factory address and deploy
call data, plus the unwrapped inner signature. -/
structure Erc6492Parsed where
  address : Option String
  data : Option String
  signature : String
  deriving DecidableEq, Repr

/-- Result of viem parseSignature: the two scalars, an optional recovery id v,
and the parity bit. -/
structure ParsedSignature where
  r : String
  s : String
  v : Option Nat
  yParity : Nat
  deriving DecidableEq, Repr

/-- The argument tuple passed to writeContract for transferWithAuthorization:
either the bytes-signature overload or the (v, r, s) overload. -/
inductive TransferArgs where
  | bytesSig (from_ to_ : String) (value validAfter validBefore : Nat)
      (nonce : String) (signature : String)
  | vrs (from_ to_ : String) (value validAfter validBefore : Nat)
      (nonce : String) (v : Nat) (r s : String)
  deriving DecidableEq, Repr

/-- A single writeContract submission. -/
structure WriteContractCall where
  address : String
  functionName : String
  args : TransferArgs
  deriving DecidableEq, Repr

/-- The request handed to client.verifyTypedData: signer address, EIP-712
domain, the authorization message and the signature. -/
structure TypedDataRequest where
  address : String
  domainName : String
  domainVersion : String
  chainId : Nat
  verifyingContract : String
  message : Authorization
  signature : String
  deriving DecidableEq, Repr

/-- The external collaborators of verify and settle.  Fallible calls return
Except Unit; an error models a thrown JS exception. -/
structure Env where
  now : Nat
  getNetworkId : String → Except Unit Nat
  usdcName : String → Except Unit String
  getVersion : Except Unit String
  verifyTypedData : TypedDataRequest → Except Unit Bool
  getERC20Balance : String → String → Except Unit Nat
  getCode : String → Except Unit (Option String)
  parseErc6492Signature : String → Erc6492Parsed
  parseSignature : String → ParsedSignature
  writeContract : WriteContractCall → Except Unit String
  waitForTransactionReceipt : String → Except Unit String

/-- JS signature.startsWith of the two-character hex marker: the first two
characters are the digit zero and the letter x. -/
def startsWithOx (s : String) : Bool :=
  decide (s.data.take 2 = ['0', 'x'])

/-- Hex-character length of a signature after stripping the optional marker,
exactly as computed at the two use sites in the source. -/
def hexSignatureLength (signature : String) : Nat :=
  if startsWithOx signature then signature.length - 2 else signature.length

/-- The SignatureShapeClassifier: the source detects a smart wallet by
hexSignatureLength strictly greater than 130. -/
def isSmartWallet (signature : String) : Bool :=
  decide (130 < hexSignatureLength signature)

/-- viem getAddress, modelled by its canonicalisation up to letter case. -/
def getAddress (addr : String) : String :=
  String.mk (addr.data.map Char.toLower)

/-- JS truthiness test rejecting undefined, the empty string and the marker
string used for empty bytecode. -/
def isEmptyBytecode : Option String → Bool
  | none => true
  | some b => decide (b = "") || decide (b = "0x")

/-- A failing VerifyResponse for the given authorization and reason. -/
def mkReject (a : Authorization) (reason : InvalidReason) : VerifyResponse :=
  { isValid := false, invalidReason := some reason, payer := a.from_ }

/-- The successful VerifyResponse for the given authorization. -/
def mkAccept (a : Authorization) : VerifyResponse :=
  { isValid := true, invalidReason := none, payer := a.from_ }

/-- The try/catch block of verify: resolve the chain id, the token domain
name (requirements.extra.name, with the chain config as fallback) and the
domain version (requirements.extra.version, with the on-chain read as
fallback).  Any exception inside yields Except.error, which verify maps to
the invalid_network reject. -/
def resolveNetwork (env : Env) (payload : PaymentPayload)
    (requirements : PaymentRequirements) : Except Unit (Nat × String × String) :=
  match env.getNetworkId payload.network with
  | .error e => .error e
  | .ok chainId =>
    match (match requirements.extra.bind Extra.name with
           | some n => Except.ok n
           | none => env.usdcName (toString chainId)) with
    | .error e => .error e
    | .ok nm =>
      match (match requirements.extra.bind Extra.version with
             | some v => Except.ok v
             | none => env.getVersion) with
      | .error e => .error e
      | .ok ver => .ok (chainId, nm, ver)

/-- The typed-data request verify hands to client.verifyTypedData. -/
def typedDataRequest (payload : PaymentPayload) (requirements : PaymentRequirements)
    (chainId : Nat) (nm ver : String) : TypedDataRequest :=
  { address := payload.payload.authorization.from_
    domainName := nm
    domainVersion := ver
    chainId := chainId
    verifyingContract := requirements.asset
    message := payload.payload.authorization
    signature := payload.payload.signature }

/-- The smart-wallet deployment check at the end of verify: only for
ContractWallet-classified signatures, read the bytecode; if empty, accept
only when the EIP-6492 parse carries both a factory address and call data,
otherwise reject as undeployed. -/
def walletCheck (env : Env) (payload : PaymentPayload) : Except Unit VerifyResponse :=
  if isSmartWallet payload.payload.signature then
    match env.getCode payload.payload.authorization.from_ with
    | .error e => .error e
    | .ok bytecode =>
      if isEmptyBytecode bytecode then
        if (env.parseErc6492Signature payload.payload.signature).address.isSome &&
            (env.parseErc6492Signature payload.payload.signature).data.isSome then
          .ok (mkAccept payload.payload.authorization)
        else
          .ok (mkReject payload.payload.authorization
            .invalid_exact_evm_payload_undeployed_smart_wallet)
      else
        .ok (mkAccept payload.payload.authorization)
  else
    .ok (mkAccept payload.payload.authorization)

/-- The checks of verify that follow a successful signature verification:
recipient, the two deadline windows, balance, value, then the wallet check. -/
def verifyChecks (env : Env) (payload : PaymentPayload)
    (requirements : PaymentRequirements) : Except Unit VerifyResponse :=
  if getAddress payload.payload.authorization.to_ ≠ getAddress requirements.payTo then
    .ok (mkReject payload.payload.authorization
      .invalid_exact_evm_payload_recipient_mismatch)
  else if payload.payload.authorization.validBefore < env.now + 6 then
    .ok (mkReject payload.payload.authorization
      .invalid_exact_evm_payload_authorization_valid_before)
  else if env.now < payload.payload.authorization.validAfter then
    .ok (mkReject payload.payload.authorization
      .invalid_exact_evm_payload_authorization_valid_after)
  else
    match env.getERC20Balance requirements.asset payload.payload.authorization.from_ with
    | .error e => .error e
    | .ok balance =>
      if balance < requirements.maxAmountRequired then
        .ok (mkReject payload.payload.authorization .insufficient_funds)
      else if payload.payload.authorization.value < requirements.maxAmountRequired then
        .ok (mkReject payload.payload.authorization
          .invalid_exact_evm_payload_authorization_value)
      else
        walletCheck env payload

/-- The part of verify that follows a successful network resolution: verify
the typed-data signature, then run the remaining ordered checks. -/
def verifyWithDomain (env : Env) (payload : PaymentPayload)
    (requirements : PaymentRequirements) (chainId : Nat) (nm ver : String) :
    Except Unit VerifyResponse :=
  match env.verifyTypedData (typedDataRequest payload requirements chainId nm ver) with
  | .error e => .error e
  | .ok recoveredAddress =>
    if recoveredAddress = false then
      .ok (mkReject payload.payload.authorization
        .invalid_exact_evm_payload_signature)
    else
      verifyChecks env payload requirements

/-- verify: scheme check, try/catch network resolution, typed-data signature
verification, then the remaining ordered checks. -/
def verify (env : Env) (payload : PaymentPayload)
    (requirements : PaymentRequirements) : Except Unit VerifyResponse :=
  if payload.scheme ≠ SCHEME ∨ requirements.scheme ≠ SCHEME then
    .ok (mkReject payload.payload.authorization .unsupported_scheme)
  else
    match resolveNetwork env payload requirements with
    | .error _ => .ok (mkReject payload.payload.authorization .invalid_network)
    | .ok (chainId, nm, ver) =>
      verifyWithDomain env payload requirements chainId nm ver

/-- Submission tail of settle: writeContract, wait for the receipt, and map a
non-success receipt status to invalid_transaction_state carrying the hash. -/
def submitAndFinish (env : Env) (call : WriteContractCall)
    (network payer : String) : Except Unit (SettleResponse × List WriteContractCall) :=
  match env.writeContract call with
  | .error e => .error e
  | .ok tx =>
    match env.waitForTransactionReceipt tx with
    | .error e => .error e
    | .ok status =>
      if status ≠ "success" then
        .ok ({ success := false, errorReason := some .invalid_transaction_state,
               transaction := tx, network := network, payer := payer }, [call])
      else
        .ok ({ success := true, transaction := tx, network := network,
               errorReason := none, payer := payer }, [call])

/-- The bytes-signature writeContract call used for smart wallets, with the
EIP-6492 wrapper unwrapped (a no-op for plain signatures). -/
def smartWalletCall (env : Env) (payload : ExactEvmPayload)
    (requirements : PaymentRequirements) : WriteContractCall :=
  { address := requirements.asset
    functionName := "transferWithAuthorization"
    args := .bytesSig payload.authorization.from_ payload.authorization.to_
      payload.authorization.value payload.authorization.validAfter
      payload.authorization.validBefore payload.authorization.nonce
      (env.parseErc6492Signature payload.signature).signature }

/-- The (v, r, s) writeContract call used for EOAs: the recovery id is the
parsed v when present, else 27 plus the parity bit. -/
def eoaCall (env : Env) (payload : ExactEvmPayload)
    (requirements : PaymentRequirements) : WriteContractCall :=
  { address := requirements.asset
    functionName := "transferWithAuthorization"
    args := .vrs payload.authorization.from_ payload.authorization.to_
      payload.authorization.value payload.authorization.validAfter
      payload.authorization.validBefore payload.authorization.nonce
      (match (env.parseSignature payload.signature).v with
       | some n => n
       | none => 27 + (env.parseSignature payload.signature).yParity)
      (env.parseSignature payload.signature).r
      (env.parseSignature payload.signature).s }

/-- settle, instrumented with the list of writeContract submissions it
performs: re-verify (returning the echoed reason, defaulted to invalid_scheme,
on failure), re-check smart-wallet deployment, then submit on the branch
selected by the signature shape and await the receipt. -/
def settleWithTrace (env : Env) (paymentPayload : PaymentPayload)
    (paymentRequirements : PaymentRequirements) :
    Except Unit (SettleResponse × List WriteContractCall) :=
  match verify env paymentPayload paymentRequirements with
  | .error e => .error e
  | .ok valid =>
    if valid.isValid = false then
      .ok ({ success := false, network := paymentPayload.network, transaction := "",
             errorReason := some (valid.invalidReason.getD .invalid_scheme),
             payer := paymentPayload.payload.authorization.from_ }, [])
    else if isSmartWallet paymentPayload.payload.signature then
      match env.getCode paymentPayload.payload.authorization.from_ with
      | .error e => .error e
      | .ok bytecode =>
        if isEmptyBytecode bytecode then
          .ok ({ success := false, network := paymentPayload.network, transaction := "",
                 errorReason := some .invalid_exact_evm_payload_undeployed_smart_wallet,
                 payer := paymentPayload.payload.authorization.from_ }, [])
        else
          submitAndFinish env
            (smartWalletCall env paymentPayload.payload paymentRequirements)
            paymentPayload.network paymentPayload.payload.authorization.from_
    else
      submitAndFinish env (eoaCall env paymentPayload.payload paymentRequirements)
        paymentPayload.network paymentPayload.payload.authorization.from_

/-- settle as exposed to callers: the response without the instrumentation. -/
def settle (env : Env) (paymentPayload : PaymentPayload)
    (paymentRequirements : PaymentRequirements) : Except Unit SettleResponse :=
  (settleWithTrace env paymentPayload paymentRequirements).map Prod.fst

/-! Concrete fixtures used by witnesses and counterexamples. -/

/-- A 130-hex-character signature body (65 bytes): the canonical EOA shape. -/
def sigBody130 : String := String.mk (List.replicate 130 'a')

/-- A 128-hex-character signature body (64 bytes, the compact encoding). -/
def sig128 : String := String.mk (List.replicate 128 'a')

/-- A prefixed 65-byte EOA signature. -/
def sigEOA : String := "0x" ++ sigBody130

/-- A prefixed 100-byte signature, classified as a smart wallet. -/
def sigSW : String := "0x" ++ String.mk (List.replicate 200 'a')

/-- A concrete authorization; the addresses carry mixed case on purpose. -/
def sampleAuth : Authorization :=
  { from_ := "0xAbCd00000000000000000000000000000000AbCd"
    to_ := "0x1234567890123456789012345678901234567890"
    value := 1000000
    validAfter := 999000
    validBefore := 1000600
    nonce := "0x01" }

/-- Concrete payment requirements matching sampleAuth. -/
def sampleReqs : PaymentRequirements :=
  { scheme := "exact"
    network := "base-sepolia"
    maxAmountRequired := 1000000
    payTo := "0x1234567890123456789012345678901234567890"
    asset := "0x036CbD53842c5426634e7929541eC2318f3dCF7e"
    extra := none }

/-- A concrete payload around sampleAuth with the given signature. -/
def samplePayload (sig : String) : PaymentPayload :=
  { x402Version := 1
    scheme := "exact"
    network := "base-sepolia"
    payload := { signature := sig, authorization := sampleAuth } }

/-- A benign environment: every external call succeeds. -/
def baseEnv : Env :=
  { now := 1000000
    getNetworkId := fun _ => .ok 84532
    usdcName := fun _ => .ok "USDC"
    getVersion := .ok "2"
    verifyTypedData := fun _ => .ok true
    getERC20Balance := fun _ _ => .ok 2000000
    getCode := fun _ => .ok (some "0x6080")
    parseErc6492Signature := fun s => { address := none, data := none, signature := s }
    parseSignature := fun _ => { r := "0xr1", s := "0xs1", v := some 27, yParity := 0 }
    writeContract := fun _ => .ok "0xtxhash"
    waitForTransactionReceipt := fun _ => .ok "success" }

/-- An environment whose balance query throws. -/
def balThrowEnv : Env :=
  { baseEnv with getERC20Balance := fun _ _ => .error () }

/-- An environment reporting a balance too small for sampleReqs. -/
def lowBalEnv : Env :=
  { baseEnv with getERC20Balance := fun _ _ => .ok 500000 }

/-- sampleAuth with a value below maxAmountRequired. -/
def sampleAuthLowValue : Authorization :=
  { sampleAuth with value := 0 }

/-- A payload around sampleAuthLowValue. -/
def lowValuePayload (sig : String) : PaymentPayload :=
  { x402Version := 1
    scheme := "exact"
    network := "base-sepolia"
    payload := { signature := sig, authorization := sampleAuthLowValue } }

/-- Requirements whose payTo carries upper-case hex letters. -/
def reqsUpperTo : PaymentRequirements :=
  { sampleReqs with payTo := "0xABCDEF7890123456789012345678901234567890" }

/-- sampleAuth paying to the same address as reqsUpperTo written in lower
case. -/
def authLowerTo : Authorization :=
  { sampleAuth with to_ := "0xabcdef7890123456789012345678901234567890" }

/-- A payload around authLowerTo. -/
def lowerToPayload (sig : String) : PaymentPayload :=
  { x402Version := 1
    scheme := "exact"
    network := "base-sepolia"
    payload := { signature := sig, authorization := authLowerTo } }

/-- A payload whose scheme is not the exact scheme. -/
def badSchemePayload : PaymentPayload :=
  { samplePayload sigEOA with scheme := "permit" }

/-- An environment whose bytecode read reports an undeployed account. -/
def emptyCodeEnv : Env :=
  { baseEnv with getCode := fun _ => .ok (some "0x") }

/-- An environment with empty bytecode whose EIP-6492 parse carries factory
address and deploy call data. -/
def meta6492Env : Env :=
  { baseEnv with
    getCode := fun _ => .ok (some "0x")
    parseErc6492Signature := fun s =>
      { address := some "0xFactory", data := some "0xdeploydata", signature := s } }

/-- An environment with deployed bytecode whose EIP-6492 parse carries
deployment metadata. -/
def meta6492DeployedEnv : Env :=
  { baseEnv with
    parseErc6492Signature := fun s =>
      { address := some "0xFactory", data := some "0xdeploydata", signature := s } }

/-- An environment whose parsed signature has no recovery id and parity 0. -/
def envParity0 : Env :=
  { baseEnv with
    parseSignature := fun _ => { r := "0xr1", s := "0xs1", v := none, yParity := 0 } }

/-- An environment whose parsed signature has no recovery id and parity 1. -/
def envParity1 : Env :=
  { baseEnv with
    parseSignature := fun _ => { r := "0xr1", s := "0xs1", v := none, yParity := 1 } }

/-! Helper lemmas shared by the claim proofs. -/

/-- Hypotheses under which verify reaches the checks that follow signature
verification: matching schemes, a resolving network, and a typed-data
verification that succeeds and returns true. -/
def prefixOk (env : Env) (p : PaymentPayload) (r : PaymentRequirements)
    (chainId : Nat) (nm ver : String) : Prop :=
  p.scheme = SCHEME ∧ r.scheme = SCHEME ∧
  resolveNetwork env p r = .ok (chainId, nm, ver) ∧
  env.verifyTypedData (typedDataRequest p r chainId nm ver) = .ok true

theorem mkReject_inj {a : Authorization} {r1 r2 : InvalidReason}
    (h : mkReject a r1 = mkReject a r2) : r1 = r2 := by
  simpa [mkReject] using h

theorem mkAccept_ne_mkReject (a : Authorization) (r : InvalidReason) :
    mkAccept a ≠ mkReject a r := by
  simp [mkAccept, mkReject]

theorem verify_eq_verifyChecks {env : Env} {p : PaymentPayload}
    {r : PaymentRequirements} {chainId : Nat} {nm ver : String}
    (h : prefixOk env p r chainId nm ver) :
    verify env p r = verifyChecks env p r := by
  obtain ⟨h1, h2, h3, h4⟩ := h
  simp [verify, verifyWithDomain, h1, h2, h3, h4]

theorem verifyChecks_eq_walletCheck {env : Env} {p : PaymentPayload}
    {r : PaymentRequirements} {bal : Nat}
    (hto : getAddress p.payload.authorization.to_ = getAddress r.payTo)
    (hvb : env.now + 6 ≤ p.payload.authorization.validBefore)
    (hva : p.payload.authorization.validAfter ≤ env.now)
    (hbal : env.getERC20Balance r.asset p.payload.authorization.from_ = .ok bal)
    (hbal2 : r.maxAmountRequired ≤ bal)
    (hval : r.maxAmountRequired ≤ p.payload.authorization.value) :
    verifyChecks env p r = walletCheck env p := by
  have h1 : ¬ (getAddress p.payload.authorization.to_ ≠ getAddress r.payTo) := by
    simp [hto]
  have h2 : ¬ (p.payload.authorization.validBefore < env.now + 6) := by omega
  have h3 : ¬ (env.now < p.payload.authorization.validAfter) := by omega
  have h4 : ¬ (bal < r.maxAmountRequired) := by omega
  have h5 : ¬ (p.payload.authorization.value < r.maxAmountRequired) := by omega
  simp [verifyChecks, h1, h2, h3, h4, h5, hbal]

theorem walletCheck_ok_cases {env : Env} {p : PaymentPayload} {v : VerifyResponse}
    (h : walletCheck env p = .ok v) :
    v = mkAccept p.payload.authorization ∨
    v = mkReject p.payload.authorization
      .invalid_exact_evm_payload_undeployed_smart_wallet := by
  unfold walletCheck at h
  split at h
  · split at h
    · cases h
    · split at h
      · split at h
        · exact Or.inl (Except.ok.inj h).symm
        · exact Or.inr (Except.ok.inj h).symm
      · exact Or.inl (Except.ok.inj h).symm
  · exact Or.inl (Except.ok.inj h).symm

theorem verifyChecks_ok_cases {env : Env} {p : PaymentPayload}
    {r : PaymentRequirements} {v : VerifyResponse}
    (h : verifyChecks env p r = .ok v) :
    v = mkAccept p.payload.authorization ∨ ∃ reason,
      v = mkReject p.payload.authorization reason ∧
      ((reason = .invalid_exact_evm_payload_recipient_mismatch ∧
          getAddress p.payload.authorization.to_ ≠ getAddress r.payTo) ∨
       (reason = .invalid_exact_evm_payload_authorization_valid_before ∧
          p.payload.authorization.validBefore < env.now + 6) ∨
       (reason = .invalid_exact_evm_payload_authorization_valid_after ∧
          env.now < p.payload.authorization.validAfter) ∨
       reason = .insufficient_funds ∨
       reason = .invalid_exact_evm_payload_authorization_value ∨
       reason = .invalid_exact_evm_payload_undeployed_smart_wallet) := by
  unfold verifyChecks at h
  split at h
  · refine Or.inr ⟨_, (Except.ok.inj h).symm, Or.inl ⟨rfl, ?_⟩⟩
    assumption
  · split at h
    · refine Or.inr ⟨_, (Except.ok.inj h).symm, Or.inr (Or.inl ⟨rfl, ?_⟩)⟩
      assumption
    · split at h
      · refine Or.inr ⟨_, (Except.ok.inj h).symm, Or.inr (Or.inr (Or.inl ⟨rfl, ?_⟩))⟩
        assumption
      · split at h
        · cases h
        · split at h
          · exact Or.inr ⟨_, (Except.ok.inj h).symm, by simp⟩
          · split at h
            · exact Or.inr ⟨_, (Except.ok.inj h).symm, by simp⟩
            · rcases walletCheck_ok_cases h with hc | hc
              · exact Or.inl hc
              · exact Or.inr ⟨_, hc, by simp⟩

theorem settleWithTrace_of_invalid {env : Env} {p : PaymentPayload}
    {r : PaymentRequirements} {v : VerifyResponse}
    (hv : verify env p r = .ok v) (hinv : v.isValid = false) :
    settleWithTrace env p r =
      .ok ({ success := false, network := p.network, transaction := "",
             errorReason := some (v.invalidReason.getD .invalid_scheme),
             payer := p.payload.authorization.from_ }, []) := by
  simp [settleWithTrace, hv, hinv]

theorem settleWithTrace_of_valid_eoa {env : Env} {p : PaymentPayload}
    {r : PaymentRequirements} {v : VerifyResponse}
    (hv : verify env p r = .ok v) (hvalid : v.isValid = true)
    (heoa : isSmartWallet p.payload.signature = false) :
    settleWithTrace env p r =
      submitAndFinish env (eoaCall env p.payload r) p.network
        p.payload.authorization.from_ := by
  simp [settleWithTrace, hv, hvalid, heoa]

theorem settleWithTrace_of_valid_smart_empty {env : Env} {p : PaymentPayload}
    {r : PaymentRequirements} {v : VerifyResponse} {bc : Option String}
    (hv : verify env p r = .ok v) (hvalid : v.isValid = true)
    (hsw : isSmartWallet p.payload.signature = true)
    (hcode : env.getCode p.payload.authorization.from_ = .ok bc)
    (hempty : isEmptyBytecode bc = true) :
    settleWithTrace env p r =
      .ok ({ success := false, network := p.network, transaction := "",
             errorReason := some .invalid_exact_evm_payload_undeployed_smart_wallet,
             payer := p.payload.authorization.from_ }, []) := by
  simp [settleWithTrace, hv, hvalid, hsw, hcode, hempty]

theorem settleWithTrace_of_valid_smart_deployed {env : Env} {p : PaymentPayload}
    {r : PaymentRequirements} {v : VerifyResponse} {bc : Option String}
    (hv : verify env p r = .ok v) (hvalid : v.isValid = true)
    (hsw : isSmartWallet p.payload.signature = true)
    (hcode : env.getCode p.payload.authorization.from_ = .ok bc)
    (hne : isEmptyBytecode bc = false) :
    settleWithTrace env p r =
      submitAndFinish env (smartWalletCall env p.payload r) p.network
        p.payload.authorization.from_ := by
  simp [settleWithTrace, hv, hvalid, hsw, hcode, hne]

theorem hexSignatureLength_no_marker {s : String} (h : startsWithOx s = false) :
    hexSignatureLength s = s.length := by
  simp [hexSignatureLength, h]

theorem hexSignatureLength_marker (s : String) :
    hexSignatureLength ("0x" ++ s) = s.length := by
  have h0 : "0x".data = ['0', 'x'] := rfl
  have h1 : "0x".length = 2 := rfl
  have hdata : ("0x" ++ s).data = '0' :: 'x' :: s.data := by
    rw [String.data_append, h0]
    rfl
  have hox : startsWithOx ("0x" ++ s) = true := by
    simp [startsWithOx, hdata]
  have hlen : ("0x" ++ s).length = 2 + s.length := by
    rw [String.length_append, h1]
  simp [hexSignatureLength, hox, hlen]

theorem verifyChecks_total (env : Env) (p : PaymentPayload) (r : PaymentRequirements)
    (hbal : ∀ asset owner, ∃ n, env.getERC20Balance asset owner = .ok n)
    (hcode : ∀ addr, ∃ c, env.getCode addr = .ok c) :
    ∃ v, verifyChecks env p r = .ok v := by
  unfold verifyChecks
  split
  · exact ⟨_, rfl⟩
  · split
    · exact ⟨_, rfl⟩
    · split
      · exact ⟨_, rfl⟩
      · obtain ⟨n, hn⟩ := hbal r.asset p.payload.authorization.from_
        simp only [hn]
        split
        · exact ⟨_, rfl⟩
        · split
          · exact ⟨_, rfl⟩
          · unfold walletCheck
            split
            · obtain ⟨c, hc⟩ := hcode p.payload.authorization.from_
              simp only [hc]
              split
              · split
                · exact ⟨_, rfl⟩
                · exact ⟨_, rfl⟩
              · exact ⟨_, rfl⟩
            · exact ⟨_, rfl⟩

theorem verifyWithDomain_total (env : Env) (p : PaymentPayload)
    (r : PaymentRequirements) (chainId : Nat) (nm ver : String)
    (hsig : ∀ q, ∃ b, env.verifyTypedData q = .ok b)
    (hbal : ∀ asset owner, ∃ n, env.getERC20Balance asset owner = .ok n)
    (hcode : ∀ addr, ∃ c, env.getCode addr = .ok c) :
    ∃ v, verifyWithDomain env p r chainId nm ver = .ok v := by
  unfold verifyWithDomain
  obtain ⟨b, hb⟩ := hsig (typedDataRequest p r chainId nm ver)
  simp only [hb]
  split
  · exact ⟨_, rfl⟩
  · exact verifyChecks_total env p r hbal hcode

theorem verify_total (env : Env) (p : PaymentPayload) (r : PaymentRequirements)
    (hsig : ∀ q, ∃ b, env.verifyTypedData q = .ok b)
    (hbal : ∀ asset owner, ∃ n, env.getERC20Balance asset owner = .ok n)
    (hcode : ∀ addr, ∃ c, env.getCode addr = .ok c) :
    ∃ v, verify env p r = .ok v := by
  unfold verify
  split
  · exact ⟨_, rfl⟩
  · split
    · exact ⟨_, rfl⟩
    · exact verifyWithDomain_total env p r _ _ _ hsig hbal hcode

/-! Claim C1. -/

/-- C1 counterexample: the claim says every signature whose stripped hex
length differs from 130 is classified ContractWallet, but the source
classifies smart wallets only for lengths strictly greater than 130, so a
128-hex-character (64-byte, compact) signature is classified EOA. -/
theorem c1_classifier_counterexample :
    hexSignatureLength sig128 ≠ 130 ∧ isSmartWallet sig128 = false := by
  constructor
  · decide
  · decide

/-- C1 (amended): the SignatureShapeClassifier used by verify and settle
classifies a signature as ContractWallet exactly when its hex length after
stripping the optional leading marker exceeds 130 characters (65 bytes), and
as EOA whenever the length is at most 130; prepending the marker to an
unprefixed signature never changes the classification. -/
theorem c1_classifier_amended (s : String) (h : startsWithOx s = false) :
    (isSmartWallet s = true ↔ 130 < s.length) ∧
    isSmartWallet ("0x" ++ s) = isSmartWallet s := by
  constructor
  · simp [isSmartWallet, hexSignatureLength_no_marker h]
  · simp [isSmartWallet, hexSignatureLength_no_marker h, hexSignatureLength_marker]

/-- C1 witness: the amended classification at the canonical 130-character
signature body. -/
theorem c1_classifier_witness :
    (isSmartWallet sigBody130 = true ↔ 130 < sigBody130.length) ∧
    isSmartWallet ("0x" ++ sigBody130) = isSmartWallet sigBody130 :=
  c1_classifier_amended sigBody130 (by decide)

/-! Claim C2. -/

/-- C2 counterexample: with every check before the balance read passing, a
balance query that throws escapes verify as an exception instead of being
mapped to an enumerated invalidReason, contradicting the claim that every
external-read failure is mapped to a structured reject. -/
theorem c2_fail_closed_counterexample :
    verify balThrowEnv (samplePayload sigEOA) sampleReqs = .error () := rfl

/-- C2 (amended): verify maps failures of network resolution and of the
on-chain version read to the invalid_network reject; whenever the
typed-data verification, the balance query and the bytecode query return
results (rather than throwing), verify returns a structured VerifyResponse.
Exceptions thrown by those three calls propagate to the caller as
transport-level errors outside the invalidReason enumeration. -/
theorem c2_fail_closed_amended (env : Env) (p : PaymentPayload)
    (r : PaymentRequirements)
    (hsig : ∀ q, ∃ b, env.verifyTypedData q = .ok b)
    (hbal : ∀ asset owner, ∃ n, env.getERC20Balance asset owner = .ok n)
    (hcode : ∀ addr, ∃ c, env.getCode addr = .ok c) :
    (∃ v, verify env p r = .ok v) ∧
    (∀ e, resolveNetwork env p r = .error e → p.scheme = SCHEME →
      r.scheme = SCHEME →
      verify env p r = .ok (mkReject p.payload.authorization .invalid_network)) := by
  constructor
  · exact verify_total env p r hsig hbal hcode
  · intro e he h1 h2
    simp [verify, h1, h2, he]

theorem verifyChecks_reject_elim {env : Env} {p : PaymentPayload}
    {r : PaymentRequirements} {reason : InvalidReason}
    (hv : verifyChecks env p r = .ok (mkReject p.payload.authorization reason)) :
    (reason = .invalid_exact_evm_payload_recipient_mismatch ∧
       getAddress p.payload.authorization.to_ ≠ getAddress r.payTo) ∨
    (reason = .invalid_exact_evm_payload_authorization_valid_before ∧
       p.payload.authorization.validBefore < env.now + 6) ∨
    (reason = .invalid_exact_evm_payload_authorization_valid_after ∧
       env.now < p.payload.authorization.validAfter) ∨
    reason = .insufficient_funds ∨
    reason = .invalid_exact_evm_payload_authorization_value ∨
    reason = .invalid_exact_evm_payload_undeployed_smart_wallet := by
  rcases verifyChecks_ok_cases hv with hc | ⟨reason2, hveq, hdis⟩
  · exact absurd hc.symm (mkAccept_ne_mkReject _ _)
  · cases mkReject_inj hveq
    exact hdis

/-- C2 witness: the amended statement at a concrete benign environment and a
concrete payload. -/
theorem c2_fail_closed_witness :
    (∃ v, verify baseEnv (samplePayload sigEOA) sampleReqs = .ok v) ∧
    (∀ e, resolveNetwork baseEnv (samplePayload sigEOA) sampleReqs = .error e →
      (samplePayload sigEOA).scheme = SCHEME → sampleReqs.scheme = SCHEME →
      verify baseEnv (samplePayload sigEOA) sampleReqs =
        .ok (mkReject (samplePayload sigEOA).payload.authorization .invalid_network)) :=
  c2_fail_closed_amended baseEnv (samplePayload sigEOA) sampleReqs
    (fun _ => ⟨true, rfl⟩) (fun _ _ => ⟨2000000, rfl⟩) (fun _ => ⟨some "0x6080", rfl⟩)

/-! Claim C3. -/

/-- C3: for every authorization reaching the deadline checks (schemes match,
the network resolves, the typed-data signature verifies, the recipient
matches), verify rejects with the valid-before reason exactly when
validBefore is strictly less than now plus six seconds, and, when the
valid-before check passes, rejects with the valid-after reason exactly when
validAfter is strictly greater than now. -/
theorem c3_deadline_checks (env : Env) (p : PaymentPayload)
    (r : PaymentRequirements) (chainId : Nat) (nm ver : String)
    (h : prefixOk env p r chainId nm ver)
    (hto : getAddress p.payload.authorization.to_ = getAddress r.payTo) :
    ((verify env p r = .ok (mkReject p.payload.authorization
        .invalid_exact_evm_payload_authorization_valid_before)) ↔
      p.payload.authorization.validBefore < env.now + 6) ∧
    (env.now + 6 ≤ p.payload.authorization.validBefore →
      ((verify env p r = .ok (mkReject p.payload.authorization
          .invalid_exact_evm_payload_authorization_valid_after)) ↔
        env.now < p.payload.authorization.validAfter)) := by
  rw [verify_eq_verifyChecks h]
  have hrec : ¬ (getAddress p.payload.authorization.to_ ≠ getAddress r.payTo) := by
    simp [hto]
  constructor
  · constructor
    · intro hv
      rcases verifyChecks_reject_elim hv with ⟨he, _⟩ | ⟨_, hc⟩ | ⟨he, _⟩ | he | he | he
        <;> first | exact hc | cases he
    · intro hcond
      unfold verifyChecks
      rw [if_neg hrec, if_pos hcond]
  · intro hvb
    constructor
    · intro hv
      rcases verifyChecks_reject_elim hv with ⟨he, _⟩ | ⟨he, _⟩ | ⟨_, hc⟩ | he | he | he
        <;> first | exact hc | cases he
    · intro hcond
      have hnb : ¬ (p.payload.authorization.validBefore < env.now + 6) := by omega
      unfold verifyChecks
      rw [if_neg hrec, if_neg hnb, if_pos hcond]

/-- C3 witness: the deadline equivalences at a concrete environment and
payload, with validBefore equal to now plus 600 and validAfter below now. -/
theorem c3_deadline_checks_witness :
    ((verify baseEnv (samplePayload sigEOA) sampleReqs =
        .ok (mkReject (samplePayload sigEOA).payload.authorization
          .invalid_exact_evm_payload_authorization_valid_before)) ↔
      (samplePayload sigEOA).payload.authorization.validBefore < baseEnv.now + 6) ∧
    (baseEnv.now + 6 ≤ (samplePayload sigEOA).payload.authorization.validBefore →
      ((verify baseEnv (samplePayload sigEOA) sampleReqs =
          .ok (mkReject (samplePayload sigEOA).payload.authorization
            .invalid_exact_evm_payload_authorization_valid_after)) ↔
        baseEnv.now < (samplePayload sigEOA).payload.authorization.validAfter)) :=
  c3_deadline_checks baseEnv (samplePayload sigEOA) sampleReqs 84532 "USDC" "2"
    ⟨rfl, rfl, rfl, rfl⟩ rfl

/-! Claim C4. -/

/-- C4: the balance check precedes the value check.  For every input reaching
the balance check, a balance below maxAmountRequired yields
insufficient_funds regardless of the authorization value, and a sufficient
balance combined with a value below maxAmountRequired yields the
authorization-value reject. -/
theorem c4_balance_before_value (env : Env) (p : PaymentPayload)
    (r : PaymentRequirements) (chainId : Nat) (nm ver : String) (bal : Nat)
    (h : prefixOk env p r chainId nm ver)
    (hto : getAddress p.payload.authorization.to_ = getAddress r.payTo)
    (hvb : env.now + 6 ≤ p.payload.authorization.validBefore)
    (hva : p.payload.authorization.validAfter ≤ env.now)
    (hbal : env.getERC20Balance r.asset p.payload.authorization.from_ = .ok bal) :
    (bal < r.maxAmountRequired →
      verify env p r = .ok (mkReject p.payload.authorization .insufficient_funds)) ∧
    (r.maxAmountRequired ≤ bal →
      p.payload.authorization.value < r.maxAmountRequired →
      verify env p r = .ok (mkReject p.payload.authorization
        .invalid_exact_evm_payload_authorization_value)) := by
  rw [verify_eq_verifyChecks h]
  have h1 : ¬ (getAddress p.payload.authorization.to_ ≠ getAddress r.payTo) := by
    simp [hto]
  have h2 : ¬ (p.payload.authorization.validBefore < env.now + 6) := by omega
  have h3 : ¬ (env.now < p.payload.authorization.validAfter) := by omega
  constructor
  · intro hlt
    simp [verifyChecks, h1, h2, h3, hbal, hlt]
  · intro hge hval
    have h4 : ¬ (bal < r.maxAmountRequired) := by omega
    simp [verifyChecks, h1, h2, h3, hbal, h4, hval]

/-- C4 witness: at a concrete environment whose reported balance 500000 is
below the required 1000000, for a payload whose value is also below the
requirement, the theorem instantiates and its first branch reports
insufficient_funds. -/
theorem c4_balance_before_value_witness :
    ((500000 : Nat) < sampleReqs.maxAmountRequired →
      verify lowBalEnv (lowValuePayload sigEOA) sampleReqs =
        .ok (mkReject (lowValuePayload sigEOA).payload.authorization
          .insufficient_funds)) ∧
    (sampleReqs.maxAmountRequired ≤ 500000 →
      (lowValuePayload sigEOA).payload.authorization.value <
        sampleReqs.maxAmountRequired →
      verify lowBalEnv (lowValuePayload sigEOA) sampleReqs =
        .ok (mkReject (lowValuePayload sigEOA).payload.authorization
          .invalid_exact_evm_payload_authorization_value)) :=
  c4_balance_before_value lowBalEnv (lowValuePayload sigEOA) sampleReqs
    84532 "USDC" "2" 500000 ⟨rfl, rfl, rfl, rfl⟩ rfl (by decide) (by decide) rfl

/-! Claim C5. -/

/-- C5: for every input reaching the recipient check, verify rejects with the
recipient-mismatch reason exactly when the normalized recipient differs from
the normalized payTo; when the two agree after normalization (in particular
when they differ only in letter case), verify never returns the
recipient-mismatch reject, so verification proceeds past the recipient
check. -/
theorem c5_recipient_check (env : Env) (p : PaymentPayload)
    (r : PaymentRequirements) (chainId : Nat) (nm ver : String)
    (h : prefixOk env p r chainId nm ver) :
    (getAddress p.payload.authorization.to_ ≠ getAddress r.payTo →
      verify env p r = .ok (mkReject p.payload.authorization
        .invalid_exact_evm_payload_recipient_mismatch)) ∧
    (getAddress p.payload.authorization.to_ = getAddress r.payTo →
      verify env p r ≠ .ok (mkReject p.payload.authorization
        .invalid_exact_evm_payload_recipient_mismatch)) := by
  rw [verify_eq_verifyChecks h]
  constructor
  · intro hne
    unfold verifyChecks
    rw [if_pos hne]
  · intro hto hv
    rcases verifyChecks_reject_elim hv with ⟨_, hc⟩ | ⟨he, _⟩ | ⟨he, _⟩ | he | he | he
      <;> first | exact hc hto | cases he

/-- C5 witness: at a concrete input whose recipient differs from payTo only
in letter case, the normalized addresses agree, so verify does not reject
with the recipient-mismatch reason. -/
theorem c5_recipient_check_witness :
    (getAddress (lowerToPayload sigEOA).payload.authorization.to_ ≠
        getAddress reqsUpperTo.payTo →
      verify baseEnv (lowerToPayload sigEOA) reqsUpperTo =
        .ok (mkReject (lowerToPayload sigEOA).payload.authorization
          .invalid_exact_evm_payload_recipient_mismatch)) ∧
    (getAddress (lowerToPayload sigEOA).payload.authorization.to_ =
        getAddress reqsUpperTo.payTo →
      verify baseEnv (lowerToPayload sigEOA) reqsUpperTo ≠
        .ok (mkReject (lowerToPayload sigEOA).payload.authorization
          .invalid_exact_evm_payload_recipient_mismatch)) :=
  c5_recipient_check baseEnv (lowerToPayload sigEOA) reqsUpperTo 84532 "USDC" "2"
    ⟨rfl, rfl, rfl, rfl⟩

/-! Claim C6. -/

/-- C6: whenever the re-invoked verifier returns a structured invalid result,
settle returns a failure immediately with no writeContract submission, and
its errorReason echoes the invalidReason, defaulting to the generic
invalid_scheme code when the reason is absent. -/
theorem c6_reverify_gate (env : Env) (p : PaymentPayload)
    (r : PaymentRequirements) (v : VerifyResponse)
    (hv : verify env p r = .ok v) (hinv : v.isValid = false) :
    (∀ reason, v.invalidReason = some reason →
      settleWithTrace env p r =
        .ok ({ success := false, network := p.network, transaction := "",
               errorReason := some reason,
               payer := p.payload.authorization.from_ }, [])) ∧
    (v.invalidReason = none →
      settleWithTrace env p r =
        .ok ({ success := false, network := p.network, transaction := "",
               errorReason := some .invalid_scheme,
               payer := p.payload.authorization.from_ }, [])) := by
  constructor
  · intro reason hr
    have hs := settleWithTrace_of_invalid hv hinv
    rw [hr] at hs
    simpa using hs
  · intro hr
    have hs := settleWithTrace_of_invalid hv hinv
    rw [hr] at hs
    simpa using hs

/-- C6 witness: a scheme-mismatched payload fails re-verification, and settle
echoes the unsupported_scheme reason without submitting. -/
theorem c6_reverify_gate_witness :
    (∀ reason, (mkReject sampleAuth .unsupported_scheme).invalidReason = some reason →
      settleWithTrace baseEnv badSchemePayload sampleReqs =
        .ok ({ success := false, network := badSchemePayload.network, transaction := "",
               errorReason := some reason,
               payer := badSchemePayload.payload.authorization.from_ }, [])) ∧
    ((mkReject sampleAuth .unsupported_scheme).invalidReason = none →
      settleWithTrace baseEnv badSchemePayload sampleReqs =
        .ok ({ success := false, network := badSchemePayload.network, transaction := "",
               errorReason := some .invalid_scheme,
               payer := badSchemePayload.payload.authorization.from_ }, [])) :=
  c6_reverify_gate baseEnv badSchemePayload sampleReqs
    (mkReject sampleAuth .unsupported_scheme) rfl rfl

/-! Claim C7. -/

/-- C7: a ContractWallet-classified authorization whose account has empty
bytecode and whose signature carries no EIP-6492 deployment metadata is
rejected by verify with the undeployed-smart-wallet reason, and settle
returns the echoed failure without ever reaching the submission step. -/
theorem c7_undeployed_without_metadata (env : Env) (p : PaymentPayload)
    (r : PaymentRequirements) (chainId : Nat) (nm ver : String)
    (bal : Nat) (bc : Option String)
    (h : prefixOk env p r chainId nm ver)
    (hto : getAddress p.payload.authorization.to_ = getAddress r.payTo)
    (hvb : env.now + 6 ≤ p.payload.authorization.validBefore)
    (hva : p.payload.authorization.validAfter ≤ env.now)
    (hbal : env.getERC20Balance r.asset p.payload.authorization.from_ = .ok bal)
    (hbal2 : r.maxAmountRequired ≤ bal)
    (hval : r.maxAmountRequired ≤ p.payload.authorization.value)
    (hsw : isSmartWallet p.payload.signature = true)
    (hcode : env.getCode p.payload.authorization.from_ = .ok bc)
    (hempty : isEmptyBytecode bc = true)
    (hmeta : ((env.parseErc6492Signature p.payload.signature).address.isSome &&
        (env.parseErc6492Signature p.payload.signature).data.isSome) = false) :
    verify env p r = .ok (mkReject p.payload.authorization
      .invalid_exact_evm_payload_undeployed_smart_wallet) ∧
    settleWithTrace env p r =
      .ok ({ success := false, network := p.network, transaction := "",
             errorReason := some .invalid_exact_evm_payload_undeployed_smart_wallet,
             payer := p.payload.authorization.from_ }, []) := by
  have hver : verify env p r = .ok (mkReject p.payload.authorization
      .invalid_exact_evm_payload_undeployed_smart_wallet) := by
    rw [verify_eq_verifyChecks h,
      verifyChecks_eq_walletCheck hto hvb hva hbal hbal2 hval]
    simp [walletCheck, hsw, hcode, hempty, hmeta]
  refine ⟨hver, ?_⟩
  have hs := settleWithTrace_of_invalid hver rfl
  simpa [mkReject] using hs

/-- C7 witness: a 100-byte signature over an account with empty bytecode and
no deployment metadata, at a concrete benign environment. -/
theorem c7_undeployed_without_metadata_witness :
    verify emptyCodeEnv (samplePayload sigSW) sampleReqs =
      .ok (mkReject (samplePayload sigSW).payload.authorization
        .invalid_exact_evm_payload_undeployed_smart_wallet) ∧
    settleWithTrace emptyCodeEnv (samplePayload sigSW) sampleReqs =
      .ok ({ success := false, network := (samplePayload sigSW).network,
             transaction := "",
             errorReason := some .invalid_exact_evm_payload_undeployed_smart_wallet,
             payer := (samplePayload sigSW).payload.authorization.from_ }, []) :=
  c7_undeployed_without_metadata emptyCodeEnv (samplePayload sigSW) sampleReqs
    84532 "USDC" "2" 2000000 (some "0x") ⟨rfl, rfl, rfl, rfl⟩ rfl
    (by decide) (by decide) rfl (by decide) (by decide) (by decide) rfl rfl rfl

/-! Claim C8. -/

/-- C8: a ContractWallet-classified authorization whose signature carries
EIP-6492 deployment metadata passes verify even when the account bytecode is
empty, and settle fails with the undeployed-smart-wallet reason exactly when
the bytecode is still empty at settlement time, proceeding to the
bytes-signature submission otherwise. -/
theorem c8_counterfactual_wallet (env : Env) (p : PaymentPayload)
    (r : PaymentRequirements) (chainId : Nat) (nm ver : String)
    (bal : Nat) (bc : Option String)
    (h : prefixOk env p r chainId nm ver)
    (hto : getAddress p.payload.authorization.to_ = getAddress r.payTo)
    (hvb : env.now + 6 ≤ p.payload.authorization.validBefore)
    (hva : p.payload.authorization.validAfter ≤ env.now)
    (hbal : env.getERC20Balance r.asset p.payload.authorization.from_ = .ok bal)
    (hbal2 : r.maxAmountRequired ≤ bal)
    (hval : r.maxAmountRequired ≤ p.payload.authorization.value)
    (hsw : isSmartWallet p.payload.signature = true)
    (hcode : env.getCode p.payload.authorization.from_ = .ok bc)
    (hmeta : ((env.parseErc6492Signature p.payload.signature).address.isSome &&
        (env.parseErc6492Signature p.payload.signature).data.isSome) = true) :
    verify env p r = .ok (mkAccept p.payload.authorization) ∧
    (isEmptyBytecode bc = true →
      settleWithTrace env p r =
        .ok ({ success := false, network := p.network, transaction := "",
               errorReason := some .invalid_exact_evm_payload_undeployed_smart_wallet,
               payer := p.payload.authorization.from_ }, [])) ∧
    (isEmptyBytecode bc = false →
      settleWithTrace env p r =
        submitAndFinish env (smartWalletCall env p.payload r) p.network
          p.payload.authorization.from_) := by
  have hver : verify env p r = .ok (mkAccept p.payload.authorization) := by
    rw [verify_eq_verifyChecks h,
      verifyChecks_eq_walletCheck hto hvb hva hbal hbal2 hval]
    by_cases hbc : isEmptyBytecode bc = true
    · simp [walletCheck, hsw, hcode, hbc, hmeta]
    · simp [walletCheck, hsw, hcode, hbc]
  refine ⟨hver, ?_, ?_⟩
  · intro hbc
    exact settleWithTrace_of_valid_smart_empty hver rfl hsw hcode hbc
  · intro hbc
    exact settleWithTrace_of_valid_smart_deployed hver rfl hsw hcode hbc

/-- C8 witness: the counterfactual-wallet behaviour at a concrete
environment whose bytecode read reports the empty marker and whose EIP-6492
parse carries deployment metadata. -/
theorem c8_counterfactual_wallet_witness :
    verify meta6492Env (samplePayload sigSW) sampleReqs =
      .ok (mkAccept (samplePayload sigSW).payload.authorization) ∧
    (isEmptyBytecode (some "0x") = true →
      settleWithTrace meta6492Env (samplePayload sigSW) sampleReqs =
        .ok ({ success := false, network := (samplePayload sigSW).network,
               transaction := "",
               errorReason := some .invalid_exact_evm_payload_undeployed_smart_wallet,
               payer := (samplePayload sigSW).payload.authorization.from_ }, [])) ∧
    (isEmptyBytecode (some "0x") = false →
      settleWithTrace meta6492Env (samplePayload sigSW) sampleReqs =
        submitAndFinish meta6492Env
          (smartWalletCall meta6492Env (samplePayload sigSW).payload sampleReqs)
          (samplePayload sigSW).network
          (samplePayload sigSW).payload.authorization.from_) :=
  c8_counterfactual_wallet meta6492Env (samplePayload sigSW) sampleReqs
    84532 "USDC" "2" 2000000 (some "0x") ⟨rfl, rfl, rfl, rfl⟩ rfl
    (by decide) (by decide) rfl (by decide) (by decide) (by decide) rfl rfl

/-! Claim C9. -/

/-- C9: for every EOA-classified authorization whose re-verification
succeeds, settle submits through the scalar-triple interface with the
recovery-id argument equal to the parsed v component when it is present, and
to 27 plus the parity bit otherwise. -/
theorem c9_eoa_recovery_id (env : Env) (p : PaymentPayload)
    (r : PaymentRequirements) (v : VerifyResponse)
    (hv : verify env p r = .ok v) (hvalid : v.isValid = true)
    (heoa : isSmartWallet p.payload.signature = false) :
    (∀ n, (env.parseSignature p.payload.signature).v = some n →
      settleWithTrace env p r = submitAndFinish env
        { address := r.asset
          functionName := "transferWithAuthorization"
          args := .vrs p.payload.authorization.from_ p.payload.authorization.to_
            p.payload.authorization.value p.payload.authorization.validAfter
            p.payload.authorization.validBefore p.payload.authorization.nonce
            n (env.parseSignature p.payload.signature).r
            (env.parseSignature p.payload.signature).s }
        p.network p.payload.authorization.from_) ∧
    ((env.parseSignature p.payload.signature).v = none →
      settleWithTrace env p r = submitAndFinish env
        { address := r.asset
          functionName := "transferWithAuthorization"
          args := .vrs p.payload.authorization.from_ p.payload.authorization.to_
            p.payload.authorization.value p.payload.authorization.validAfter
            p.payload.authorization.validBefore p.payload.authorization.nonce
            (27 + (env.parseSignature p.payload.signature).yParity)
            (env.parseSignature p.payload.signature).r
            (env.parseSignature p.payload.signature).s }
        p.network p.payload.authorization.from_) := by
  have hs := settleWithTrace_of_valid_eoa hv hvalid heoa
  constructor
  · intro n hn
    rw [hs]
    simp [eoaCall, hn]
  · intro hn
    rw [hs]
    simp [eoaCall, hn]

/-- C9 witness: the recovery id at three concrete environments: a parsed v
of 27 used directly, parity 0 mapped to 27, and parity 1 mapped to 28. -/
theorem c9_eoa_recovery_id_witness :
    (settleWithTrace baseEnv (samplePayload sigEOA) sampleReqs =
      submitAndFinish baseEnv
        { address := sampleReqs.asset
          functionName := "transferWithAuthorization"
          args := .vrs sampleAuth.from_ sampleAuth.to_ sampleAuth.value
            sampleAuth.validAfter sampleAuth.validBefore sampleAuth.nonce
            27 "0xr1" "0xs1" }
        (samplePayload sigEOA).network sampleAuth.from_) ∧
    (settleWithTrace envParity0 (samplePayload sigEOA) sampleReqs =
      submitAndFinish envParity0
        { address := sampleReqs.asset
          functionName := "transferWithAuthorization"
          args := .vrs sampleAuth.from_ sampleAuth.to_ sampleAuth.value
            sampleAuth.validAfter sampleAuth.validBefore sampleAuth.nonce
            27 "0xr1" "0xs1" }
        (samplePayload sigEOA).network sampleAuth.from_) ∧
    (settleWithTrace envParity1 (samplePayload sigEOA) sampleReqs =
      submitAndFinish envParity1
        { address := sampleReqs.asset
          functionName := "transferWithAuthorization"
          args := .vrs sampleAuth.from_ sampleAuth.to_ sampleAuth.value
            sampleAuth.validAfter sampleAuth.validBefore sampleAuth.nonce
            28 "0xr1" "0xs1" }
        (samplePayload sigEOA).network sampleAuth.from_) :=
  ⟨(c9_eoa_recovery_id baseEnv (samplePayload sigEOA) sampleReqs
      (mkAccept sampleAuth) rfl rfl (by decide)).1 27 rfl,
   (c9_eoa_recovery_id envParity0 (samplePayload sigEOA) sampleReqs
      (mkAccept sampleAuth) rfl rfl (by decide)).2 rfl,
   (c9_eoa_recovery_id envParity1 (samplePayload sigEOA) sampleReqs
      (mkAccept sampleAuth) rfl rfl (by decide)).2 rfl⟩

/-! Claim C10. -/

theorem submitAndFinish_ok_cases {env : Env} {call : WriteContractCall}
    {network payer : String} {resp : SettleResponse} {tr : List WriteContractCall}
    (h : submitAndFinish env call network payer = .ok (resp, tr)) :
    tr = [call] ∧
    ∃ tx, env.writeContract call = .ok tx ∧ resp.transaction = tx ∧
      ((resp.success = true ∧ resp.errorReason = none) ∨
       (resp.success = false ∧
        resp.errorReason = some .invalid_transaction_state)) := by
  unfold submitAndFinish at h
  split at h
  · cases h
  · rename_i tx htx
    split at h
    · cases h
    · split at h
      · simp only [Except.ok.injEq, Prod.mk.injEq] at h
        obtain ⟨hresp, htr⟩ := h
        subst hresp
        subst htr
        exact ⟨rfl, tx, htx, rfl, Or.inr ⟨rfl, rfl⟩⟩
      · simp only [Except.ok.injEq, Prod.mk.injEq] at h
        obtain ⟨hresp, htr⟩ := h
        subst hresp
        subst htr
        exact ⟨rfl, tx, htx, rfl, Or.inl ⟨rfl, rfl⟩⟩

theorem c10_submit_leaf {env : Env} {call : WriteContractCall}
    {network payer : String} {resp : SettleResponse} {tr : List WriteContractCall}
    (h : submitAndFinish env call network payer = .ok (resp, tr)) :
    (resp.success = true → resp.errorReason = none ∧
      ∃ c, tr = [c] ∧ env.writeContract c = .ok resp.transaction) ∧
    (tr = [] → resp.success = false ∧ resp.transaction = "") ∧
    (resp.success = false → resp.transaction ≠ "" →
      resp.errorReason = some .invalid_transaction_state) := by
  obtain ⟨htr, tx, htx, htxeq, hcases⟩ := submitAndFinish_ok_cases h
  refine ⟨?_, ?_, ?_⟩
  · intro hsucc
    rcases hcases with ⟨_, herr⟩ | ⟨hfail, _⟩
    · exact ⟨herr, call, htr, htxeq ▸ htx⟩
    · rw [hsucc] at hfail
      cases hfail
  · intro h0
    rw [htr] at h0
    cases h0
  · intro hfalse _
    rcases hcases with ⟨hsucc, _⟩ | ⟨_, herr⟩
    · rw [hsucc] at hfalse
      cases hfalse
    · exact herr

/-- C10: every structured SettleResponse of settle satisfies: success
implies an absent errorReason and a transaction equal to the hash returned
by the single writeContract submission; every result returned before the
submission step is a failure carrying the empty transaction; and every
failure carrying a non-empty transaction is the reverted-receipt path,
carrying invalid_transaction_state. -/
theorem c10_settle_response_invariant (env : Env) (p : PaymentPayload)
    (r : PaymentRequirements) (resp : SettleResponse)
    (tr : List WriteContractCall)
    (h : settleWithTrace env p r = .ok (resp, tr)) :
    (resp.success = true → resp.errorReason = none ∧
      ∃ c, tr = [c] ∧ env.writeContract c = .ok resp.transaction) ∧
    (tr = [] → resp.success = false ∧ resp.transaction = "") ∧
    (resp.success = false → resp.transaction ≠ "" →
      resp.errorReason = some .invalid_transaction_state) := by
  unfold settleWithTrace at h
  split at h
  · cases h
  · split at h
    · simp only [Except.ok.injEq, Prod.mk.injEq] at h
      obtain ⟨hresp, htr⟩ := h
      subst hresp
      subst htr
      refine ⟨?_, ?_, ?_⟩ <;> simp
    · split at h
      · split at h
        · cases h
        · split at h
          · simp only [Except.ok.injEq, Prod.mk.injEq] at h
            obtain ⟨hresp, htr⟩ := h
            subst hresp
            subst htr
            refine ⟨?_, ?_, ?_⟩ <;> simp
          · exact c10_submit_leaf h
      · exact c10_submit_leaf h

/-- C10 witness: the invariant instantiated at a successful concrete
settlement. -/
theorem c10_settle_response_invariant_witness :
    (({ success := true, network := "base-sepolia", transaction := "0xtxhash",
        errorReason := none, payer := sampleAuth.from_ } : SettleResponse).success = true →
      ({ success := true, network := "base-sepolia", transaction := "0xtxhash",
         errorReason := none, payer := sampleAuth.from_ } : SettleResponse).errorReason = none ∧
      ∃ c, [eoaCall baseEnv (samplePayload sigEOA).payload sampleReqs] = [c] ∧
        baseEnv.writeContract c = .ok
          ({ success := true, network := "base-sepolia", transaction := "0xtxhash",
             errorReason := none, payer := sampleAuth.from_ } : SettleResponse).transaction) ∧
    ([eoaCall baseEnv (samplePayload sigEOA).payload sampleReqs] = ([] : List WriteContractCall) →
      ({ success := true, network := "base-sepolia", transaction := "0xtxhash",
         errorReason := none, payer := sampleAuth.from_ } : SettleResponse).success = false ∧
      ({ success := true, network := "base-sepolia", transaction := "0xtxhash",
         errorReason := none, payer := sampleAuth.from_ } : SettleResponse).transaction = "") ∧
    (({ success := true, network := "base-sepolia", transaction := "0xtxhash",
        errorReason := none, payer := sampleAuth.from_ } : SettleResponse).success = false →
      ({ success := true, network := "base-sepolia", transaction := "0xtxhash",
         errorReason := none, payer := sampleAuth.from_ } : SettleResponse).transaction ≠ "" →
      ({ success := true, network := "base-sepolia", transaction := "0xtxhash",
         errorReason := none, payer := sampleAuth.from_ } : SettleResponse).errorReason =
        some .invalid_transaction_state) :=
  c10_settle_response_invariant baseEnv (samplePayload sigEOA) sampleReqs
    { success := true, network := "base-sepolia", transaction := "0xtxhash",
      errorReason := none, payer := sampleAuth.from_ }
    [eoaCall baseEnv (samplePayload sigEOA).payload sampleReqs] rfl

end X402
